import Mathlib

/-!
Shallow embedding of the risk-sizing and trade-gating core of `src/app.py`
(crypto-futures order-entry dashboard).  Numeric values are modelled as
rationals; the session state (`st.session_state.trades` / `.stats`) is made
explicit as an `AppState` record threaded through `execute_trade_action`;
the current UTC date (`datetime.utcnow().date().isoformat()`) is passed as
an explicit `today : String` parameter.
-/

namespace TradeApp

/-- Tolerance used by the Trade Gate override checks (`1e-9` in the source). -/
def EPS : ℚ := 1 / 1000000000

/-- Constant `DAILY_MAX_TRADES = 4` from the configuration block. -/
def DAILY_MAX_TRADES : ℕ := 4

/-- Constant `DAILY_MAX_PER_SYMBOL = 2` from the configuration block. -/
def DAILY_MAX_PER_SYMBOL : ℕ := 2

/-- Constant `RISK_PERCENT = 1.0` from the configuration block. -/
def RISK_PERCENT : ℚ := 1

/-- Constant `DEFAULT_SL_POINTS_BUFFER = 20.0` from the configuration block. -/
def DEFAULT_SL_POINTS_BUFFER : ℚ := 20

/-- Constant `DEFAULT_SL_PERCENT_BUFFER = 0.2` from the configuration block. -/
def DEFAULT_SL_PERCENT_BUFFER : ℚ := 2 / 10

/-- A recorded trade, mirroring the dictionary built in `execute_trade_action`. -/
structure Trade where
  id : ℤ
  date : String
  time : String
  symbol : String
  side : String
  order_type : String
  entry : ℚ
  stop_loss : ℚ
  units : ℚ
  notional : ℚ
  leverage : ℚ
  take_profits : List (ℚ × ℚ)
deriving DecidableEq

/-- One day's counters, mirroring `{"total": 0, "by_symbol": {}}`.
Absent dictionary keys are modelled by the total function defaulting to 0. -/
structure DayStats where
  total : ℕ
  by_symbol : String → ℕ

/-- The mutable session state: the trade ledger and the per-date stats map. -/
structure AppState where
  trades : List Trade
  stats : String → DayStats

/-- A day with no recorded trades, the dictionary default `{"total": 0, "by_symbol": {}}`. -/
def emptyDayStats : DayStats := { total := 0, by_symbol := fun _ => 0 }

/-- The session state right after `initialize_session_state`: no trades, all counters zero. -/
def initialState : AppState := { trades := [], stats := fun _ => emptyDayStats }

/-- Function `calculate_unutilized_capital` from `src/app.py` (lines 41-46): scope the
ledger to trades dated `today`, subtract `notional / leverage` for each, and
floor the remainder at zero.  (The Python `t.get("leverage", 1)` default only
applies to a missing key; every trade the recorder logs carries a leverage.) -/
def calculate_unutilized_capital (today : String) (trades : List Trade) (balance : ℚ) : ℚ :=
  let today_trades := trades.filter fun t => t.date = today
  let used_capital := (today_trades.map fun t => t.notional / t.leverage).sum
  max 0 (balance - used_capital)

/-- The two stop-loss entry modes: `"SL Points"` and `"SL % Movement"`. -/
inductive SlType where
  | points
  | percent
deriving DecidableEq

/-- The numeric components of `calculate_position_sizing`'s return tuple
`(units, leverage, notional, unutilized_capital, max_leverage, info_text)`;
the trailing `info_text` string is presentation and is not modelled. -/
structure SizingResult where
  units : ℚ
  leverage : ℚ
  notional : ℚ
  unutilized_capital : ℚ
  max_leverage : ℚ
deriving DecidableEq

/-- Function `calculate_position_sizing` from `src/app.py` (lines 89-135). -/
def calculate_position_sizing (today : String) (trades : List Trade) (balance : ℚ)
    (entry : ℚ) (sl_type : SlType) (sl_value : ℚ) : SizingResult :=
  let unutilized_capital := calculate_unutilized_capital today trades balance
  let risk_amount := unutilized_capital * RISK_PERCENT / 100
  if unutilized_capital ≤ 0 ∨ entry ≤ 0 ∨ sl_value ≤ 0 then
    { units := 0, leverage := 0, notional := 0, unutilized_capital := 0, max_leverage := 0 }
  else
    match sl_type with
    | SlType.points =>
      let distance := sl_value
      let effective_sl_distance := distance + DEFAULT_SL_POINTS_BUFFER
      if effective_sl_distance > 0 then
        let units := risk_amount / effective_sl_distance
        let sl_percent_movement := distance / entry * 100
        let notional := units * entry
        let leverage0 := notional / unutilized_capital
        let leverage1 := if leverage0 < 1 then 1 else leverage0
        let leverage := (⌈leverage1 * 2⌉ : ℚ) / 2
        let max_leverage := if sl_percent_movement > 0 then 100 / sl_percent_movement else 0
        { units := units, leverage := leverage, notional := notional,
          unutilized_capital := unutilized_capital, max_leverage := max_leverage }
      else
        { units := 0, leverage := 1, notional := 0,
          unutilized_capital := unutilized_capital, max_leverage := 0 }
    | SlType.percent =>
      let sl_value_percent := sl_value
      let sl_percent_decimal := sl_value_percent / 100
      let effective_sl_percent_decimal := sl_percent_decimal + DEFAULT_SL_PERCENT_BUFFER / 100
      if effective_sl_percent_decimal > 0 then
        let units := risk_amount / (effective_sl_percent_decimal * entry)
        let max_leverage := 100 / sl_value_percent
        let leverage := max_leverage
        let notional := units * entry
        { units := units, leverage := leverage, notional := notional,
          unutilized_capital := unutilized_capital, max_leverage := max_leverage }
      else
        { units := 0, leverage := 1, notional := 0,
          unutilized_capital := unutilized_capital, max_leverage := 0 }

/-- Outcome of one `execute_trade_action` call: one of the four rejection
messages surfaced via `st.error`, or acceptance carrying the logged trade. -/
inductive ExecResult where
  | dailyLimitReached
  | symbolLimitReached
  | overrideExceedsSuggested
  | insufficientCapital
  | accepted (trade : Trade)
deriving DecidableEq

/-- Resolution of a manual override, `user if user > 0 else suggested`, from
lines 593-594 of `src/app.py`. -/
def override_or_suggested (user suggested : ℚ) : ℚ :=
  if user > 0 then user else suggested

/-- Function `execute_trade_action` from `src/app.py` (lines 580-638), with the
session state passed and returned explicitly.  The broker call
(`place_broker_order`) is an excluded external collaborator; its status
string does not affect the ledger, so it is not modelled. -/
def execute_trade_action (today : String) (now_id : ℤ) (now_time : String) (state : AppState)
    (balance : ℚ) (symbol side : String) (entry sl : ℚ)
    (suggested_units suggested_lev user_units user_lev : ℚ)
    (sl_type : SlType) (sl_value : ℚ) (order_type : String)
    (tp_list : List (ℚ × ℚ)) : ExecResult × AppState :=
  let stats := state.stats today
  let total := stats.total
  let sym_count := stats.by_symbol symbol
  if total ≥ DAILY_MAX_TRADES then (ExecResult.dailyLimitReached, state)
  else if sym_count ≥ DAILY_MAX_PER_SYMBOL then (ExecResult.symbolLimitReached, state)
  else
    let units_to_use := override_or_suggested user_units suggested_units
    let lev_to_use := override_or_suggested user_lev suggested_lev
    let check := calculate_position_sizing today state.trades balance entry sl_type sl_value
    if units_to_use > check.units + EPS then (ExecResult.overrideExceedsSuggested, state)
    else if lev_to_use > check.leverage + EPS then (ExecResult.overrideExceedsSuggested, state)
    else
      let notional_to_use := units_to_use * entry
      let margin_required :=
        if lev_to_use > 0 then notional_to_use / lev_to_use else notional_to_use
      if margin_required > check.unutilized_capital + EPS then
        (ExecResult.insufficientCapital, state)
      else
        let trade : Trade :=
          { id := now_id, date := today, time := now_time, symbol := symbol, side := side,
            order_type := order_type, entry := entry, stop_loss := sl,
            units := units_to_use, notional := notional_to_use, leverage := lev_to_use,
            take_profits := tp_list }
        let newDay : DayStats :=
          { total := (state.stats today).total + 1,
            by_symbol := fun s =>
              if s = symbol then (state.stats today).by_symbol symbol + 1
              else (state.stats today).by_symbol s }
        (ExecResult.accepted trade,
          { trades := state.trades ++ [trade],
            stats := fun d => if d = today then newDay else state.stats d })

/-- States reachable from the fresh session by any sequence of
`execute_trade_action` calls (the only code path that mutates the ledger
or the counters). -/
inductive Reachable : AppState → Prop where
  | init : Reachable initialState
  | step (today : String) (now_id : ℤ) (now_time : String) (state : AppState) (balance : ℚ)
      (symbol side : String) (entry sl suggested_units suggested_lev user_units user_lev : ℚ)
      (sl_type : SlType) (sl_value : ℚ) (order_type : String) (tp_list : List (ℚ × ℚ)) :
      Reachable state →
      Reachable (execute_trade_action today now_id now_time state balance symbol side entry sl
        suggested_units suggested_lev user_units user_lev sl_type sl_value order_type
        tp_list).2

/-- The specification's formula for used capital in `unutilized_capital`:
divisor floored at 1, `Σ (trade.notional / max(trade.leverage, 1))`.
This follows the spec's words, to be compared against the source's
`calculate_unutilized_capital`. -/
def used_capital_spec (today : String) (trades : List Trade) : ℚ :=
  ((trades.filter fun t => t.date = today).map fun t => t.notional / max t.leverage 1).sum

/-- The divisor the source actually uses: the recorded leverage itself. -/
def used_capital_code (today : String) (trades : List Trade) : ℚ :=
  ((trades.filter fun t => t.date = today).map fun t => t.notional / t.leverage).sum

/-- A trade recorded with leverage 1/2 (an override below 1 passes every
gate check), satisfying `notional = units * entry_price`. -/
def lowLevTrade : Trade :=
  { id := 1, date := "2025-10-12", time := "00:00:00 UTC", symbol := "BTCUSDT",
    side := "LONG", order_type := "LIMIT ORDER", entry := 8000, stop_loss := 7900,
    units := 1/2, notional := 4000, leverage := 1/2, take_profits := [] }

/-- Claim C2 counterexample: on a ledger holding one trade with leverage 1/2 and
notional 4000, the code charges `4000 / (1/2) = 8000` of a 10000 balance
(leaving 2000), while the spec's floored divisor `max(1/2, 1) = 1` would
charge only 4000 (leaving 6000). -/
theorem unutilized_capital_floored_divisor_cex :
    ¬ (calculate_unutilized_capital "2025-10-12" [lowLevTrade] 10000
        = max 0 (10000 - used_capital_spec "2025-10-12" [lowLevTrade])) := by
  have h1 : calculate_unutilized_capital "2025-10-12" [lowLevTrade] 10000 = 2000 := by
    simp only [calculate_unutilized_capital, lowLevTrade, List.filter, List.map, List.sum]
    norm_num
  have h2 : used_capital_spec "2025-10-12" [lowLevTrade] = 4000 := by
    simp only [used_capital_spec, lowLevTrade, List.filter, List.map, List.sum]
    rw [max_eq_right (by norm_num : (1/2 : ℚ) ≤ 1)]
    norm_num
  rw [h1, h2]
  rw [max_eq_right (by norm_num : (0:ℚ) ≤ 10000 - 4000)]
  norm_num

/-- Claim C2 amended: unutilized capital is `max(0, balance - used)` where
`used = Σ notional / leverage` over today's trades — the divisor is the
recorded leverage as-is, not floored at 1 — and the result is never
negative. -/
theorem unutilized_capital_spec (today : String) (trades : List Trade) (balance : ℚ) :
    calculate_unutilized_capital today trades balance
        = max 0 (balance - used_capital_code today trades)
      ∧ 0 ≤ calculate_unutilized_capital today trades balance :=
  ⟨rfl, le_max_left 0 _⟩

/-- Claim C4 counterexample: on a non-positive entry price the sizing engine
returns leverage 0, not the leverage 1 the claim states. -/
theorem invalid_input_leverage_cex :
    (calculate_position_sizing "2025-10-12" [] 10000 (-1) SlType.points 5).leverage ≠ 1 := by
  have hg : calculate_unutilized_capital "2025-10-12" [] 10000 ≤ 0 ∨ (-1 : ℚ) ≤ 0 ∨ (5 : ℚ) ≤ 0 :=
    Or.inr (Or.inl (by norm_num))
  simp only [calculate_position_sizing, if_pos hg]
  norm_num

/-- Claim C4 amended: whenever `unutilized_capital ≤ 0`, `entry ≤ 0` or
`sl_value ≤ 0`, the sizing engine returns the all-zero result
(units 0, leverage 0, notional 0, unutilized 0, max_leverage 0) instead of
failing fatally. -/
theorem invalid_input_zero_result (today : String) (trades : List Trade) (balance : ℚ)
    (entry : ℚ) (sl_type : SlType) (sl_value : ℚ)
    (h : calculate_unutilized_capital today trades balance ≤ 0 ∨ entry ≤ 0 ∨ sl_value ≤ 0) :
    calculate_position_sizing today trades balance entry sl_type sl_value
      = { units := 0, leverage := 0, notional := 0, unutilized_capital := 0,
          max_leverage := 0 } := by
  simp only [calculate_position_sizing, if_pos h]

/-- Claim C4 witness: a negative entry price at a fresh ledger yields the
all-zero result. -/
theorem invalid_input_zero_result_witness :
    calculate_position_sizing "2025-10-12" [] 10000 (-1) SlType.points 5
      = { units := 0, leverage := 0, notional := 0, unutilized_capital := 0,
          max_leverage := 0 } :=
  invalid_input_zero_result "2025-10-12" [] 10000 (-1) SlType.points 5
    (Or.inr (Or.inl (by norm_num)))

/-- Claim C10: a trade recorded under any date other than `today` contributes
nothing to used capital — appending it to the ledger leaves the
unutilized-capital computation unchanged. -/
theorem stale_trade_does_not_consume_capital (today : String) (trades : List Trade)
    (balance : ℚ) (t : Trade) (h : t.date ≠ today) :
    calculate_unutilized_capital today (trades ++ [t]) balance
      = calculate_unutilized_capital today trades balance := by
  simp only [calculate_unutilized_capital, List.filter_append, List.filter, h, if_false,
    List.append_nil, decide_eq_false h, Bool.false_eq_true, decide_False]

/-- Claim C10 witness: a trade dated 2025-10-11 is invisible to the computation
for 2025-10-12. -/
theorem stale_trade_does_not_consume_capital_witness :
    calculate_unutilized_capital "2025-10-12"
        ([] ++ [{ lowLevTrade with date := "2025-10-11" }]) 10000
      = calculate_unutilized_capital "2025-10-12" [] 10000 :=
  stale_trade_does_not_consume_capital "2025-10-12" [] 10000
    { lowLevTrade with date := "2025-10-11" } (by decide)

/-- Claim C3 counterexample: with ample capital, entry 100 and a 200% stop, the
engine returns suggested leverage `100/200 = 1/2`, not
`max(1, max_leverage) = 1` as the claim states. -/
theorem percent_mode_no_floor_cex :
    ¬ ((calculate_position_sizing "2025-10-12" [] 10000 100 SlType.percent 200).leverage
        = max 1 (calculate_position_sizing "2025-10-12" [] 10000 100
            SlType.percent 200).max_leverage) := by
  have hg : ¬(calculate_unutilized_capital "2025-10-12" [] 10000 ≤ 0 ∨ (100 : ℚ) ≤ 0
      ∨ (200 : ℚ) ≤ 0) := by
    push_neg
    refine ⟨?_, by norm_num, by norm_num⟩
    simp only [calculate_unutilized_capital, List.filter, List.map, List.sum]
    norm_num
  have hp : (200 : ℚ) / 100 + DEFAULT_SL_PERCENT_BUFFER / 100 > 0 := by
    norm_num [DEFAULT_SL_PERCENT_BUFFER]
  simp only [calculate_position_sizing, if_neg hg, if_pos hp]
  rw [max_eq_left (by norm_num : (100 : ℚ) / 200 ≤ 1)]
  norm_num

/-- Claim C3 amended: for a valid percent-mode query the engine returns
`max_leverage = 100 / stop_value` (from the unbuffered percent) and
`suggested_leverage = max_leverage` exactly — with no floor at 1, so a
stop percentage above 100 yields a suggested leverage below 1. -/
theorem percent_mode_leverage (today : String) (trades : List Trade) (balance : ℚ)
    (entry sl_value : ℚ)
    (hu : 0 < calculate_unutilized_capital today trades balance)
    (he : 0 < entry) (hs : 0 < sl_value) :
    (calculate_position_sizing today trades balance entry SlType.percent sl_value).max_leverage
        = 100 / sl_value
      ∧ (calculate_position_sizing today trades balance entry SlType.percent sl_value).leverage
        = 100 / sl_value := by
  have hg : ¬(calculate_unutilized_capital today trades balance ≤ 0 ∨ entry ≤ 0
      ∨ sl_value ≤ 0) := by
    push_neg
    exact ⟨hu, he, hs⟩
  have hp : sl_value / 100 + DEFAULT_SL_PERCENT_BUFFER / 100 > 0 := by
    have h1 : (0 : ℚ) < sl_value / 100 := by positivity
    norm_num [DEFAULT_SL_PERCENT_BUFFER]
    linarith
  simp only [calculate_position_sizing, if_neg hg, if_pos hp]
  exact ⟨trivial, trivial⟩

/-- Claim C3 witness: a 0.5% stop with a fresh 10000 ledger gives
`max_leverage = suggested_leverage = 200`. -/
theorem percent_mode_leverage_witness :
    (calculate_position_sizing "2025-10-12" [] 10000 27050 SlType.percent
        (1/2)).max_leverage = 100 / (1/2)
      ∧ (calculate_position_sizing "2025-10-12" [] 10000 27050 SlType.percent
        (1/2)).leverage = 100 / (1/2) :=
  percent_mode_leverage "2025-10-12" [] 10000 27050 (1/2)
    (by simp only [calculate_unutilized_capital, List.filter, List.map, List.sum]; norm_num)
    (by norm_num) (by norm_num)

/-- Rounding a capital-fit leverage up to the next half turn commutes with
flooring at 1: flooring the ratio first (as the code does) and flooring the
rounded value (as the spec writes it) agree. -/
theorem ceil_half_floor_comm (r : ℚ) :
    (⌈(if r < 1 then 1 else r) * 2⌉ : ℚ) / 2 = max 1 ((⌈r * 2⌉ : ℚ) / 2) := by
  by_cases h : r < 1
  · rw [if_pos h]
    have h2 : ⌈r * 2⌉ ≤ 2 := by
      rw [Int.ceil_le]
      push_cast
      linarith
    have h3 : ((⌈r * 2⌉ : ℚ)) / 2 ≤ 1 := by
      rw [div_le_one (by norm_num : (0:ℚ) < 2)]
      exact_mod_cast h2
    rw [max_eq_left h3]
    norm_num
  · rw [if_neg h]
    push_neg at h
    have h2 : (2 : ℤ) ≤ ⌈r * 2⌉ := by
      have : ((2 : ℤ) : ℚ) ≤ r * 2 := by push_cast; linarith
      calc (2 : ℤ) = ⌈((2 : ℤ) : ℚ)⌉ := by simp
        _ ≤ ⌈r * 2⌉ := Int.ceil_le_ceil this
    have h3 : (1 : ℚ) ≤ (⌈r * 2⌉ : ℚ) / 2 := by
      rw [le_div_iff₀ (by norm_num : (0:ℚ) < 2)]
      exact_mod_cast h2
    rw [max_eq_right h3]

/-- Claim C5: for a valid points-mode query, the returned suggested leverage
equals the spec's formula `max(1, ceil(required_leverage * 2) / 2)` with
`required_leverage = notional / unutilized_capital`: flooring the ratio at 1
before rounding (the code) and flooring after rounding (the spec) agree. -/
theorem points_mode_leverage (today : String) (trades : List Trade) (balance : ℚ)
    (entry sl_value : ℚ)
    (hu : 0 < calculate_unutilized_capital today trades balance)
    (he : 0 < entry) (hs : 0 < sl_value) :
    (calculate_position_sizing today trades balance entry SlType.points sl_value).leverage
      = max 1 ((⌈(calculate_position_sizing today trades balance entry SlType.points
            sl_value).notional
          / (calculate_position_sizing today trades balance entry SlType.points
            sl_value).unutilized_capital * 2⌉ : ℚ) / 2) := by
  have hg : ¬(calculate_unutilized_capital today trades balance ≤ 0 ∨ entry ≤ 0
      ∨ sl_value ≤ 0) := by
    push_neg
    exact ⟨hu, he, hs⟩
  have hd : sl_value + DEFAULT_SL_POINTS_BUFFER > 0 := by
    norm_num [DEFAULT_SL_POINTS_BUFFER]
    linarith
  simp only [calculate_position_sizing, if_neg hg, if_pos hd]
  exact ceil_half_floor_comm _

/-- Claim C5 witness: balance 10000, entry 1000, 5-point stop — required leverage
0.4 rounds to a suggested leverage of 1 under both formulas. -/
theorem points_mode_leverage_witness :
    (calculate_position_sizing "2025-10-12" [] 10000 1000 SlType.points 5).leverage
      = max 1 ((⌈(calculate_position_sizing "2025-10-12" [] 10000 1000 SlType.points
            5).notional
          / (calculate_position_sizing "2025-10-12" [] 10000 1000 SlType.points
            5).unutilized_capital * 2⌉ : ℚ) / 2) :=
  points_mode_leverage "2025-10-12" [] 10000 1000 5
    (by simp only [calculate_unutilized_capital, List.filter, List.map, List.sum]; norm_num)
    (by norm_num) (by norm_num)

/-- Claim C6: for a valid points-mode query the returned units are
`(unutilized_capital * RISK_PERCENT / 100) / (stop_points + points_buffer)`,
with `RISK_PERCENT = 1` and `DEFAULT_SL_POINTS_BUFFER = 20`. -/
theorem points_mode_units (today : String) (trades : List Trade) (balance : ℚ)
    (entry sl_value : ℚ)
    (hu : 0 < calculate_unutilized_capital today trades balance)
    (he : 0 < entry) (hs : 0 < sl_value) :
    (calculate_position_sizing today trades balance entry SlType.points sl_value).units
      = calculate_unutilized_capital today trades balance * RISK_PERCENT / 100
        / (sl_value + DEFAULT_SL_POINTS_BUFFER) := by
  have hg : ¬(calculate_unutilized_capital today trades balance ≤ 0 ∨ entry ≤ 0
      ∨ sl_value ≤ 0) := by
    push_neg
    exact ⟨hu, he, hs⟩
  have hd : sl_value + DEFAULT_SL_POINTS_BUFFER > 0 := by
    norm_num [DEFAULT_SL_POINTS_BUFFER]
    linarith
  simp only [calculate_position_sizing, if_neg hg, if_pos hd]

/-- Claim C6 witness: the spec's own scenario — balance 10000, entry 1000,
5-point stop — sizes to `100 / 25 = 4` units. -/
theorem points_mode_units_witness :
    (calculate_position_sizing "2025-10-12" [] 10000 1000 SlType.points 5).units
      = calculate_unutilized_capital "2025-10-12" [] 10000 * RISK_PERCENT / 100
        / (5 + DEFAULT_SL_POINTS_BUFFER) :=
  points_mode_units "2025-10-12" [] 10000 1000 5
    (by simp only [calculate_unutilized_capital, List.filter, List.map, List.sum]; norm_num)
    (by norm_num) (by norm_num)

/-- A session state whose daily counter for every date already stands at the
daily maximum. -/
def cappedState : AppState :=
  { trades := [], stats := fun _ => { total := DAILY_MAX_TRADES, by_symbol := fun _ => 0 } }

/-- Claim C8: whenever `execute_trade_action` returns any non-accepted result
(DAILY_LIMIT_REACHED, SYMBOL_LIMIT_REACHED, OVERRIDE_EXCEEDS_SUGGESTED or
INSUFFICIENT_CAPITAL), the session state — ledger, daily total and
per-symbol counts — is returned exactly unchanged. -/
theorem rejection_preserves_state (today : String) (now_id : ℤ) (now_time : String)
    (state : AppState) (balance : ℚ) (symbol side : String)
    (entry sl suggested_units suggested_lev user_units user_lev : ℚ)
    (sl_type : SlType) (sl_value : ℚ) (order_type : String) (tp_list : List (ℚ × ℚ))
    (r : ExecResult) (st2 : AppState)
    (hE : execute_trade_action today now_id now_time state balance symbol side entry sl
        suggested_units suggested_lev user_units user_lev sl_type sl_value order_type tp_list
      = (r, st2))
    (hr : ∀ t : Trade, r ≠ ExecResult.accepted t) :
    st2 = state := by
  simp only [execute_trade_action] at hE
  split at hE
  · cases hE; rfl
  · split at hE
    · cases hE; rfl
    · split at hE
      · cases hE; rfl
      · split at hE
        · cases hE; rfl
        · split at hE
          · split at hE
            · cases hE; rfl
            · cases hE
              exact absurd rfl (hr _)
          · split at hE
            · cases hE; rfl
            · cases hE
              exact absurd rfl (hr _)

/-- Claim C8 witness: at a state whose daily counter is full, the call rejects
and hands back the same state. -/
theorem rejection_preserves_state_witness : cappedState = cappedState :=
  rejection_preserves_state "2025-10-12" 1 "00:00:00 UTC" cappedState 10000 "BTCUSDT" "LONG"
    1000 995 4 1 0 0 SlType.points 5 "LIMIT ORDER" []
    ExecResult.dailyLimitReached cappedState rfl
    (fun _ h => ExecResult.noConfusion h)

/-- Claim C9: a trade the gate accepts carries `notional = units * entry_price`,
where its units are the effective (override-resolved) units and its entry
price is the proposal's entry price. -/
theorem accepted_trade_notional (today : String) (now_id : ℤ) (now_time : String)
    (state : AppState) (balance : ℚ) (symbol side : String)
    (entry sl suggested_units suggested_lev user_units user_lev : ℚ)
    (sl_type : SlType) (sl_value : ℚ) (order_type : String) (tp_list : List (ℚ × ℚ))
    (t : Trade)
    (hE : (execute_trade_action today now_id now_time state balance symbol side entry sl
        suggested_units suggested_lev user_units user_lev sl_type sl_value order_type
        tp_list).1 = ExecResult.accepted t) :
    t.notional = t.units * t.entry
      ∧ t.units = override_or_suggested user_units suggested_units
      ∧ t.entry = entry := by
  simp only [execute_trade_action] at hE
  split at hE
  · simp at hE
  · split at hE
    · simp at hE
    · split at hE
      · simp at hE
      · split at hE
        · simp at hE
        · split at hE
          · split at hE
            · simp at hE
            · simp only [ExecResult.accepted.injEq] at hE
              subst hE
              exact ⟨rfl, rfl, rfl⟩
          · split at hE
            · simp at hE
            · simp only [ExecResult.accepted.injEq] at hE
              subst hE
              exact ⟨rfl, rfl, rfl⟩

/-- Claim C9 witness: at a fresh ledger with the engine's own suggestion
(balance 10000, entry 1000, 5-point stop, no override) the gate accepts a
trade with units 4, entry 1000 and notional 4000. -/
theorem accepted_trade_notional_witness :
    ((4000 : ℚ) = 4 * 1000 ∧ (4 : ℚ) = override_or_suggested 0 4 ∧ (1000 : ℚ) = 1000) := by
  have h := accepted_trade_notional "2025-10-12" 1 "00:00:00 UTC" initialState 10000
    "BTCUSDT" "LONG" 1000 995 4 1 0 0 SlType.points 5 "LIMIT ORDER" []
    { id := 1, date := "2025-10-12", time := "00:00:00 UTC", symbol := "BTCUSDT",
      side := "LONG", order_type := "LIMIT ORDER", entry := 1000, stop_loss := 995,
      units := 4, notional := 4000, leverage := 1, take_profits := [] }
  refine h ?_
  norm_num [execute_trade_action, override_or_suggested, calculate_position_sizing,
    calculate_unutilized_capital, initialState, emptyDayStats, EPS, DAILY_MAX_TRADES,
    DAILY_MAX_PER_SYMBOL, RISK_PERCENT, DEFAULT_SL_POINTS_BUFFER, List.filter]

/-- Claim C1: once a proposal has passed the daily and per-symbol limit checks,
if its effective units exceed the engine's suggested units by more than
1e-9, or its effective leverage exceeds the engine's suggested leverage by
more than 1e-9, the gate returns OVERRIDE_EXCEEDS_SUGGESTED with the state
unchanged; and conversely any trade the gate does accept stays within both
bounds. -/
theorem override_gate_enforced (today : String) (now_id : ℤ) (now_time : String)
    (state : AppState) (balance : ℚ) (symbol side : String)
    (entry sl suggested_units suggested_lev user_units user_lev : ℚ)
    (sl_type : SlType) (sl_value : ℚ) (order_type : String) (tp_list : List (ℚ × ℚ))
    (hd : (state.stats today).total < DAILY_MAX_TRADES)
    (hsym : (state.stats today).by_symbol symbol < DAILY_MAX_PER_SYMBOL) :
    ((override_or_suggested user_units suggested_units
          > (calculate_position_sizing today state.trades balance entry sl_type
              sl_value).units + EPS
        ∨ override_or_suggested user_lev suggested_lev
          > (calculate_position_sizing today state.trades balance entry sl_type
              sl_value).leverage + EPS) →
      execute_trade_action today now_id now_time state balance symbol side entry sl
          suggested_units suggested_lev user_units user_lev sl_type sl_value order_type tp_list
        = (ExecResult.overrideExceedsSuggested, state))
    ∧ (∀ t : Trade,
        (execute_trade_action today now_id now_time state balance symbol side entry sl
            suggested_units suggested_lev user_units user_lev sl_type sl_value order_type
            tp_list).1 = ExecResult.accepted t →
        t.units ≤ (calculate_position_sizing today state.trades balance entry sl_type
            sl_value).units + EPS
          ∧ t.leverage ≤ (calculate_position_sizing today state.trades balance entry sl_type
            sl_value).leverage + EPS) := by
  have hnd : ¬((state.stats today).total ≥ DAILY_MAX_TRADES) := Nat.not_le.mpr hd
  have hns : ¬((state.stats today).by_symbol symbol ≥ DAILY_MAX_PER_SYMBOL) :=
    Nat.not_le.mpr hsym
  constructor
  · intro hexc
    simp only [execute_trade_action, if_neg hnd, if_neg hns]
    by_cases h1 : override_or_suggested user_units suggested_units
        > (calculate_position_sizing today state.trades balance entry sl_type
            sl_value).units + EPS
    · rw [if_pos h1]
    · rw [if_neg h1, if_pos (hexc.resolve_left h1)]
  · intro t hE
    simp only [execute_trade_action, if_neg hnd, if_neg hns] at hE
    split at hE
    · simp at hE
    · split at hE
      · simp at hE
      · rename_i h1 h2
        split at hE
        · split at hE
          · simp at hE
          · simp only [ExecResult.accepted.injEq] at hE
            subst hE
            exact ⟨not_lt.mp h1, not_lt.mp h2⟩
        · split at hE
          · simp at hE
          · simp only [ExecResult.accepted.injEq] at hE
            subst hE
            exact ⟨not_lt.mp h1, not_lt.mp h2⟩

/-- Claim C1 witness: a fresh session, engine suggestion 4 units at leverage 1,
and a user override of 40 units — tenfold the suggestion — is rejected
with OVERRIDE_EXCEEDS_SUGGESTED and the state is unchanged; the bound also
holds for any accepted trade of that proposal. -/
theorem override_gate_enforced_witness :
    ((override_or_suggested 40 4
          > (calculate_position_sizing "2025-10-12" initialState.trades 10000 1000 SlType.points
              5).units + EPS
        ∨ override_or_suggested 0 1
          > (calculate_position_sizing "2025-10-12" initialState.trades 10000 1000 SlType.points
              5).leverage + EPS) →
      execute_trade_action "2025-10-12" 1 "00:00:00 UTC" initialState 10000 "BTCUSDT" "LONG"
          1000 995 4 1 40 0 SlType.points 5 "LIMIT ORDER" []
        = (ExecResult.overrideExceedsSuggested, initialState))
    ∧ (∀ t : Trade,
        (execute_trade_action "2025-10-12" 1 "00:00:00 UTC" initialState 10000 "BTCUSDT" "LONG"
            1000 995 4 1 40 0 SlType.points 5 "LIMIT ORDER" []).1 = ExecResult.accepted t →
        t.units ≤ (calculate_position_sizing "2025-10-12" initialState.trades 10000 1000
            SlType.points 5).units + EPS
          ∧ t.leverage ≤ (calculate_position_sizing "2025-10-12" initialState.trades 10000 1000
            SlType.points 5).leverage + EPS) :=
  override_gate_enforced "2025-10-12" 1 "00:00:00 UTC" initialState 10000 "BTCUSDT" "LONG"
    1000 995 4 1 40 0 SlType.points 5 "LIMIT ORDER" []
    (by simp [initialState, emptyDayStats, DAILY_MAX_TRADES])
    (by simp [initialState, emptyDayStats, DAILY_MAX_PER_SYMBOL])

/-- Every reachable session state keeps each date's recorded-trade total at
or below DAILY_MAX_TRADES: the gate only increments a counter it has just
checked to be strictly below the cap. -/
theorem reachable_total_le (st : AppState) (h : Reachable st) (d : String) :
    (st.stats d).total ≤ DAILY_MAX_TRADES := by
  induction h with
  | init => simp [initialState, emptyDayStats]
  | step today now_id now_time state balance symbol side entry sl su slv uu ul slt sv ot tp
      hst ih =>
    simp only [execute_trade_action]
    split
    · exact ih
    · split
      · exact ih
      · split
        · exact ih
        · split
          · exact ih
          · split
            · split
              · exact ih
              · rename_i h1 h2 h3 h4 h5 h6
                by_cases hdt : d = today
                · subst hdt
                  simp only [if_pos rfl]
                  exact not_le.mp h1
                · simpa [hdt] using ih
            · split
              · exact ih
              · rename_i h1 h2 h3 h4 h5 h6
                by_cases hdt : d = today
                · subst hdt
                  simp only [if_pos rfl]
                  exact not_le.mp h1
                · simpa [hdt] using ih

/-- Claim C7: in every reachable session state the daily total never exceeds
DAILY_MAX_TRADES, and once it has reached DAILY_MAX_TRADES every further
proposal for that date — whatever its symbol — is rejected with
DAILY_LIMIT_REACHED and the state is unchanged. -/
theorem daily_limit_enforced (st : AppState) (h : Reachable st) (today : String)
    (now_id : ℤ) (now_time : String) (balance : ℚ) (symbol side : String)
    (entry sl suggested_units suggested_lev user_units user_lev : ℚ)
    (sl_type : SlType) (sl_value : ℚ) (order_type : String) (tp_list : List (ℚ × ℚ)) :
    (st.stats today).total ≤ DAILY_MAX_TRADES
      ∧ ((st.stats today).total ≥ DAILY_MAX_TRADES →
        execute_trade_action today now_id now_time st balance symbol side entry sl
            suggested_units suggested_lev user_units user_lev sl_type sl_value order_type
            tp_list
          = (ExecResult.dailyLimitReached, st)) := by
  refine ⟨reachable_total_le st h today, fun hge => ?_⟩
  simp only [execute_trade_action, if_pos hge]

/-- Claim C7 witness: the fresh session is reachable; its counter for the current
date is within the cap, and the rejection branch is available the moment
the counter reaches the cap. -/
theorem daily_limit_enforced_witness :
    (initialState.stats "2025-10-12").total ≤ DAILY_MAX_TRADES
      ∧ ((initialState.stats "2025-10-12").total ≥ DAILY_MAX_TRADES →
        execute_trade_action "2025-10-12" 1 "00:00:00 UTC" initialState 10000 "BTCUSDT" "LONG"
            1000 995 4 1 0 0 SlType.points 5 "LIMIT ORDER" []
          = (ExecResult.dailyLimitReached, initialState)) :=
  daily_limit_enforced initialState Reachable.init "2025-10-12" 1 "00:00:00 UTC" 10000
    "BTCUSDT" "LONG" 1000 995 4 1 0 0 SlType.points 5 "LIMIT ORDER" []

end TradeApp
